import Mathlib

/-!
Shallow embedding of `DacAdvancedControl.cpp` (LG ES9218 DAC advanced-control
HAL shim).  The single source file implements feature discovery at
construction time and four accessors dispatching on an `AdvancedFeature`
enum, with state mirrored between sysfs kernel control files and the
Android property store.

External collaborators (filesystem, property store) are modelled as explicit
state threaded through the functions.  Machine integers (`int32_t`) are
modelled as `Int` with explicit 32-bit wraparound where C arithmetic can
overflow.
-/

namespace Dac

/-- `INT32_MIN` of the C `int32_t` type. -/
def INT32_MIN : Int := -(2 ^ 31)

/-- `INT32_MAX` of the C `int32_t` type. -/
def INT32_MAX : Int := 2 ^ 31 - 1

/-- `n` is representable as a C `int32_t`. -/
def isInt32 (n : Int) : Prop := INT32_MIN ≤ n ∧ n ≤ INT32_MAX

instance (n : Int) : Decidable (isInt32 n) := by
  unfold isInt32; infer_instance

/-- Truncation of an integer to 32-bit two's-complement, the value a C
`int32_t` holds after an overflowing arithmetic operation on typical
hardware (signed overflow is undefined behaviour in C++; we model the
ubiquitous wraparound result). -/
def toInt32 (n : Int) : Int := (n + 2 ^ 31) % 2 ^ 32 - 2 ^ 31

/-- Modelled from the spec: the `AdvancedFeature` HIDL enum is declared in
the interface definition (`types.hal`), which is not under `src/`.  The spec
gives the closed set {AVCVolume, HifiMode}; HIDL enums are carried as
`int32_t` on the wire, so the feature argument is modelled as `Int`, with
the declaration-order values 0 and 1.  Values outside the enum can reach
the C++ `switch`, whose `default` branch the model makes explicit. -/
def AVCVolume : Int := 0

/-- Modelled from the spec: second declared `AdvancedFeature` enum value
(see `AVCVolume`). -/
def HifiMode : Int := 1

/-- Modelled from the spec: `KeyValue` HIDL struct from the interface
definition (not under `src/`): a (label, value) pair of strings, as used by
the `hifi_modes` table in the source. -/
structure KeyValue where
  name : String
  value : String
deriving DecidableEq, Repr

/-- Numeric range descriptor inside `FeatureStates` (min/max/step
`int32_t` fields). -/
structure FeatureRange where
  min : Int
  max : Int
  step : Int
deriving DecidableEq, Repr

/-- Modelled from the spec: the `FeatureStates` HIDL struct (not under
`src/`) holds a numeric range and an enumerated (label, value) list; the
source populates exactly one of the two.  A default-constructed struct
leaves the plain-int range fields uninitialized, modelled as `none`; the
`hidl_vec` member default-constructs to the empty list. -/
structure FeatureStates where
  range : Option FeatureRange
  states : List KeyValue
deriving DecidableEq, Repr

/-- Compile-time configuration from `DacAdvancedControl.h`, which is not
under `src/`: the two control-file name suffixes (`AVC_VOLUME`,
`HIFI_MODE`), the two property keys (`PROPERTY_HIFI_DAC_AVC_VOLUME`,
`PROPERTY_HIFI_DAC_MODE`) and the two compile-time defaults
(`AVC_VOLUME_DEFAULT`, `HIFI_MODE_DEFAULT`).  Their concrete values decide
no claim, so the model is parameterized over them. -/
structure Config where
  avcSuffix : String
  hifiSuffix : String
  avcProp : String
  hifiProp : String
  avcDefault : Int
  hifiDefault : Int
deriving DecidableEq, Repr

/-- One entry yielded by `std::filesystem::directory_iterator` over the
fixed parent directory `COMMON_ES9218_PATH`: its full path string and
whether it is a directory. -/
structure DirEntry where
  path : String
  isDir : Bool
deriving DecidableEq, Repr

/-- Construction-time snapshot of the filesystem: the entries of the fixed
parent directory, and the set (as a list) of paths for which
`std::filesystem::exists` is true. -/
structure Filesystem where
  entries : List DirEntry
  files : List String
deriving DecidableEq, Repr

/-- The Android property store, modelled as an association list where the
most recent write is at the head (`propGetString` reads the first match). -/
abbrev PropStore : Type := List (String × String)

/-- Read a property's raw string value: first (most recent) binding wins,
`none` when the key was never set. -/
def propGetString (ps : PropStore) (key : String) : Option String :=
  (ps.find? (fun kv => kv.1 == key)).map (fun kv => kv.2)

/-- Modelled from the spec: `property_set` from libcutils (external
collaborator, out of scope per the spec).  Its documented contract returns
0 on success and a negative value on failure, leaving the store unchanged
on failure.  Whether the store accepts the write depends on the
environment, threaded in as the oracle `ok`. -/
def property_set (ps : PropStore) (ok : Bool) (key v : String) : Int × PropStore :=
  if ok then (0, (key, v) :: ps) else (-1, ps)

/-- Is `c` one of the whitespace characters `strtoimax` skips before the
number. -/
def isSpaceCh (c : Char) : Bool :=
  c == ' ' || c == '\t' || c == '\n' || c == '\r' || c == '\x0b' || c == '\x0c'

/-- Value of a list of decimal digit characters, most significant first. -/
def decDigits (l : List Char) : Nat :=
  l.foldl (fun a c => a * 10 + (c.toNat - 48)) 0

/-- Parse a full decimal integer: optional leading whitespace, optional
sign, one or more digits, nothing after.  `none` on any other shape. -/
def parseDecInt (s : String) : Option Int :=
  let l := s.toList.dropWhile isSpaceCh
  let sign : Int := match l with
    | '-' :: _ => -1
    | _ => 1
  let rest : List Char := match l with
    | '-' :: r => r
    | '+' :: r => r
    | r => r
  if rest.isEmpty then none
  else if rest.all Char.isDigit then some (sign * (decDigits rest : Int))
  else none

/-- Modelled from the spec: the acceptance test of libcutils
`property_get_int32` on a present property value — the whole string must
parse as a decimal integer within `int32_t` bounds, else the caller's
default is used ("read with a per-feature default when absent or
unparsable"). -/
def parseInt32Prop (s : String) : Option Int :=
  if s.isEmpty then none
  else match parseDecInt s with
    | none => none
    | some n => if INT32_MIN ≤ n ∧ n ≤ INT32_MAX then some n else none

/-- Modelled from the spec: libcutils `property_get_int32` (external
collaborator): returns the property's value parsed as a decimal `int32_t`,
or `defVal` when the property is absent, empty, unparsable or out of
range. -/
def property_get_int32 (ps : PropStore) (key : String) (defVal : Int) : Int :=
  match propGetString ps key with
  | none => defVal
  | some s => (parseInt32Prop s).getD defVal

/-- Does the pattern match at the head of the character list. -/
def leadMatch : List Char → List Char → Bool
  | [], _ => true
  | _ :: _, [] => false
  | p :: ps, c :: cs => p == c && leadMatch ps cs

/-- Does the character list contain the pattern as a contiguous sublist. -/
def containsPat (pat : List Char) : List Char → Bool
  | [] => pat.isEmpty
  | c :: cs => leadMatch pat (c :: cs) || containsPat pat cs

/-- `s.find(pat) != std::string::npos`: `pat` occurs as a substring of
`s`. -/
def strContains (s pat : String) : Bool :=
  containsPat pat.toList s.toList

/-- The in-memory state of the `DacAdvancedControl` object: base sysfs
directory, the two derived control-file paths, and the discovered supported
feature list (C++ members `mDacBasePath`, `avcPath`, `hifiPath`,
`mSupportedAdvancedFeatures`). -/
structure Controller where
  mDacBasePath : String
  avcPath : String
  hifiPath : String
  mSupportedAdvancedFeatures : List Int
deriving DecidableEq, Repr

/-- External mutable state touched by the shim: the property store and the
log of kernel control-file writes (each `set(path, value)` call appends the
path and the integer it formats into the file). -/
structure ExtState where
  props : PropStore
  kernel : List (String × Int)
deriving DecidableEq, Repr

/-- `DacAdvancedControl::writeAvcVolumeState`: writes `(-1)*value` (32-bit
arithmetic) to the AVC kernel file, then the original value as a decimal
string to the AVC property; returns the C `(bool)` cast of the
`property_set` status. -/
def writeAvcVolumeState (cfg : Config) (avcPath : String) (st : ExtState) (ok : Bool)
    (value : Int) : Bool × ExtState :=
  let st1 : ExtState := { st with kernel := st.kernel ++ [(avcPath, toInt32 ((-1) * value))] }
  let r := property_set st1.props ok cfg.avcProp (toString value)
  (r.1 != 0, { st1 with props := r.2 })

/-- `DacAdvancedControl::writeHifiModeState`: writes `value` to the hifi
kernel file, then the value as a decimal string to the mode property;
returns the C `(bool)` cast of the `property_set` status. -/
def writeHifiModeState (cfg : Config) (hifiPath : String) (st : ExtState) (ok : Bool)
    (value : Int) : Bool × ExtState :=
  let st1 : ExtState := { st with kernel := st.kernel ++ [(hifiPath, value)] }
  let r := property_set st1.props ok cfg.hifiProp (toString value)
  (r.1 != 0, { st1 with props := r.2 })

/-- `DacAdvancedControl::getAvcVolumeState`: read the AVC property with the
compile-time default. -/
def getAvcVolumeState (cfg : Config) (ps : PropStore) : Int :=
  property_get_int32 ps cfg.avcProp cfg.avcDefault

/-- `DacAdvancedControl::getHifiModeState`: read the mode property with the
compile-time default. -/
def getHifiModeState (cfg : Config) (ps : PropStore) : Int :=
  property_get_int32 ps cfg.hifiProp cfg.hifiDefault

/-- The first directory entry of the parent path whose name contains
`"0048"`, the ES9218 chip identifier checked by the constructor loop;
`mDacBasePath` stays empty when none matches. -/
def findBase (entries : List DirEntry) : String :=
  match entries.find? (fun e => e.isDir && strContains e.path "0048") with
  | some e => e.path
  | none => ""

/-- `DacAdvancedControl::DacAdvancedControl()`: discover the base path; on
failure return with all members default-initialized.  Otherwise derive the
two control-file paths, and for each file that exists append the feature to
the supported list and resynchronize the kernel file from the cached
property value.  `okA`/`okH` are the success oracles of the two possible
constructor-time `property_set` calls. -/
def construct (cfg : Config) (fs : Filesystem) (st : ExtState) (okA okH : Bool) :
    Controller × ExtState :=
  let base := findBase fs.entries
  if base.isEmpty then
    ({ mDacBasePath := "", avcPath := "", hifiPath := "", mSupportedAdvancedFeatures := [] }, st)
  else
    let aPath := base ++ cfg.avcSuffix
    let hPath := base ++ cfg.hifiSuffix
    let r1 : List Int × ExtState :=
      if fs.files.contains aPath then
        ([AVCVolume], (writeAvcVolumeState cfg aPath st okA (getAvcVolumeState cfg st.props)).2)
      else ([], st)
    let r2 : List Int × ExtState :=
      if fs.files.contains hPath then
        (r1.1 ++ [HifiMode],
          (writeHifiModeState cfg hPath r1.2 okH (getHifiModeState cfg r1.2.props)).2)
      else r1
    ({ mDacBasePath := base, avcPath := aPath, hifiPath := hPath,
       mSupportedAdvancedFeatures := r2.1 }, r2.2)

/-- `DacAdvancedControl::getSupportedAdvancedFeatures`: pass the discovered
list to the callback. -/
def getSupportedAdvancedFeatures (c : Controller) : List Int :=
  c.mSupportedAdvancedFeatures

/-- `DacAdvancedControl::getAvcVolumeStates`: constant range -24..0 step 1;
the `states` vector stays default (empty). -/
def getAvcVolumeStates : FeatureStates :=
  { range := some { min := -24, max := 0, step := 1 }, states := [] }

/-- The static `hifi_modes` table. -/
def hifi_modes : List KeyValue :=
  [{ name := "Normal", value := "0" },
   { name := "High Impedance", value := "1" },
   { name := "AUX", value := "2" }]

/-- `DacAdvancedControl::getHifiModeStates`: the fixed (label, value)
table; the range fields stay uninitialized (`none`). -/
def getHifiModeStates : FeatureStates :=
  { range := none, states := hifi_modes }

/-- `DacAdvancedControl::getSupportedAdvancedFeatureValues`: `std::find`
over the supported list, then switch on the feature.  `none` models
"callback never invoked" (unsupported feature, or the switch `default`
branch). -/
def getSupportedAdvancedFeatureValues (c : Controller) (feature : Int) :
    Option FeatureStates :=
  if c.mSupportedAdvancedFeatures.contains feature then
    if feature = AVCVolume then some getAvcVolumeStates
    else if feature = HifiMode then some getHifiModeStates
    else none
  else none

/-- `DacAdvancedControl::setFeatureValue`: linear search of the supported
list; unsupported features return `false` with no write; otherwise dispatch
to the per-feature write helper; the switch `default` branch falls through
to `return false`. -/
def setFeatureValue (cfg : Config) (c : Controller) (st : ExtState) (ok : Bool)
    (feature value : Int) : Bool × ExtState :=
  if c.mSupportedAdvancedFeatures.contains feature then
    if feature = AVCVolume then writeAvcVolumeState cfg c.avcPath st ok value
    else if feature = HifiMode then writeHifiModeState cfg c.hifiPath st ok value
    else (false, st)
  else (false, st)

/-- `DacAdvancedControl::getFeatureValue`: linear search of the supported
list; unsupported features return the sentinel -1; otherwise switch on the
feature.  The switch `default` branch returns the uninitialized local
`ret`, modelled as `none`; every defined return is `some`. -/
def getFeatureValue (cfg : Config) (c : Controller) (ps : PropStore) (feature : Int) :
    Option Int :=
  if c.mSupportedAdvancedFeatures.contains feature then
    if feature = AVCVolume then some (getAvcVolumeState cfg ps)
    else if feature = HifiMode then some (getHifiModeState cfg ps)
    else none
  else some (-1)

/-- Whole-system state: the controller object plus the external state. -/
structure Sys where
  ctrl : Controller
  ext : ExtState
deriving DecidableEq, Repr

/-- `setFeatureValue` lifted to the whole system: the method body writes no
member field, so only the external state changes. -/
def sysSetFeatureValue (cfg : Config) (s : Sys) (ok : Bool) (feature value : Int) :
    Bool × Sys :=
  let r := setFeatureValue cfg s.ctrl s.ext ok feature value
  (r.1, { s with ext := r.2 })

/-- `getFeatureValue` lifted to the whole system: the method body performs
no write at all. -/
def sysGetFeatureValue (cfg : Config) (s : Sys) (feature : Int) : Option Int × Sys :=
  (getFeatureValue cfg s.ctrl s.ext.props feature, s)

/-- `getSupportedAdvancedFeatures` lifted to the whole system. -/
def sysGetSupportedAdvancedFeatures (s : Sys) : List Int × Sys :=
  (getSupportedAdvancedFeatures s.ctrl, s)

/-- `getSupportedAdvancedFeatureValues` lifted to the whole system. -/
def sysGetSupportedAdvancedFeatureValues (s : Sys) (feature : Int) :
    Option FeatureStates × Sys :=
  (getSupportedAdvancedFeatureValues s.ctrl feature, s)

/-! ### Concrete fixtures used by witnesses and counterexamples -/

/-- A representative concrete configuration (the header's concrete strings
are not under `src/`; no claim depends on their exact values). -/
def cfgW : Config :=
  { avcSuffix := "/avc_volume", hifiSuffix := "/hifi_mode",
    avcProp := "persist.vendor.lge.dac.avc_volume",
    hifiProp := "persist.vendor.lge.dac.hifi_mode",
    avcDefault := 0, hifiDefault := 0 }

/-- A concrete filesystem snapshot with one matching `0048` codec directory
and both control files present. -/
def fsW : Filesystem :=
  { entries := [{ path := "/sys/devices/platform/soc/c0c8000.i2c/i2c-2/2-0048", isDir := true }],
    files := ["/sys/devices/platform/soc/c0c8000.i2c/i2c-2/2-0048/avc_volume",
              "/sys/devices/platform/soc/c0c8000.i2c/i2c-2/2-0048/hifi_mode"] }

/-- Empty external state. -/
def st0 : ExtState := { props := [], kernel := [] }

/-- The controller constructed from `fsW`: both features supported. -/
def ctrlW : Controller := (construct cfgW fsW st0 true true).1

/-! ### Helper lemmas -/

/-- 32-bit truncation is the identity on representable values. -/
theorem toInt32_eq_self {n : Int} (h1 : INT32_MIN ≤ n) (h2 : n ≤ INT32_MAX) :
    toInt32 n = n := by
  unfold toInt32
  unfold INT32_MIN at h1
  unfold INT32_MAX at h2
  rw [Int.emod_eq_of_lt (by omega) (by omega)]
  omega

/-- `getFeatureValue` on an unsupported feature is the sentinel. -/
theorem getFeatureValue_unsupported {cfg : Config} {c : Controller} {ps : PropStore}
    {f : Int} (h : f ∉ c.mSupportedAdvancedFeatures) :
    getFeatureValue cfg c ps f = some (-1) := by
  simp [getFeatureValue, h]

/-- `setFeatureValue` on an unsupported feature: `false`, state untouched. -/
theorem setFeatureValue_unsupported {cfg : Config} {c : Controller} {st : ExtState}
    {ok : Bool} {f v : Int} (h : f ∉ c.mSupportedAdvancedFeatures) :
    setFeatureValue cfg c st ok f v = (false, st) := by
  simp [setFeatureValue, h]

/-- `getSupportedAdvancedFeatureValues` on an unsupported feature never
invokes the callback. -/
theorem getSupportedAdvancedFeatureValues_unsupported {c : Controller}
    {f : Int} (h : f ∉ c.mSupportedAdvancedFeatures) :
    getSupportedAdvancedFeatureValues c f = none := by
  simp [getSupportedAdvancedFeatureValues, h]

/-- Unfolding of the AVC write helper: kernel gets the 32-bit negation, the
property store gets the decimal string of the original value when the write
succeeds, and the returned boolean is the negation of the property-write
success. -/
theorem writeAvcVolumeState_eq (cfg : Config) (p : String) (st : ExtState) (ok : Bool)
    (v : Int) :
    writeAvcVolumeState cfg p st ok v =
      (!ok, { props := if ok then (cfg.avcProp, toString v) :: st.props else st.props,
              kernel := st.kernel ++ [(p, toInt32 ((-1) * v))] }) := by
  cases ok <;> simp [writeAvcVolumeState, property_set]

/-- Unfolding of the hifi write helper: kernel gets the value unchanged, the
property store gets its decimal string when the write succeeds, and the
returned boolean is the negation of the property-write success. -/
theorem writeHifiModeState_eq (cfg : Config) (p : String) (st : ExtState) (ok : Bool)
    (v : Int) :
    writeHifiModeState cfg p st ok v =
      (!ok, { props := if ok then (cfg.hifiProp, toString v) :: st.props else st.props,
              kernel := st.kernel ++ [(p, v)] }) := by
  cases ok <;> simp [writeHifiModeState, property_set]

/-- `setFeatureValue` dispatches AVCVolume to the AVC write helper. -/
theorem setFeatureValue_avc {cfg : Config} {c : Controller} {st : ExtState} {ok : Bool}
    {v : Int} (h : AVCVolume ∈ c.mSupportedAdvancedFeatures) :
    setFeatureValue cfg c st ok AVCVolume v = writeAvcVolumeState cfg c.avcPath st ok v := by
  simp [setFeatureValue, h]

/-- `setFeatureValue` dispatches HifiMode to the hifi write helper. -/
theorem setFeatureValue_hifi {cfg : Config} {c : Controller} {st : ExtState} {ok : Bool}
    {v : Int} (h : HifiMode ∈ c.mSupportedAdvancedFeatures) :
    setFeatureValue cfg c st ok HifiMode v = writeHifiModeState cfg c.hifiPath st ok v := by
  have hne : HifiMode ≠ AVCVolume := by decide
  simp [setFeatureValue, h, hne]

/-- `getFeatureValue` dispatches AVCVolume to the AVC property read. -/
theorem getFeatureValue_avc {cfg : Config} {c : Controller} {ps : PropStore}
    (h : AVCVolume ∈ c.mSupportedAdvancedFeatures) :
    getFeatureValue cfg c ps AVCVolume = some (getAvcVolumeState cfg ps) := by
  simp [getFeatureValue, h]

/-- `getFeatureValue` dispatches HifiMode to the mode property read. -/
theorem getFeatureValue_hifi {cfg : Config} {c : Controller} {ps : PropStore}
    (h : HifiMode ∈ c.mSupportedAdvancedFeatures) :
    getFeatureValue cfg c ps HifiMode = some (getHifiModeState cfg ps) := by
  have hne : HifiMode ≠ AVCVolume := by decide
  simp [getFeatureValue, h, hne]

/-- Reading a key just written reads the new binding. -/
theorem property_get_int32_cons_self (k s : String) (ps : PropStore) (d : Int) :
    property_get_int32 ((k, s) :: ps) k d = (parseInt32Prop s).getD d := by
  simp [property_get_int32, propGetString, List.find?_cons_of_pos]

/-- The property-store round trip parses back every decimal string the shim
writes for values in the claimed feature ranges. -/
theorem parseInt32Prop_toString_small (v : Int) (h1 : -24 ≤ v) (h2 : v ≤ 2) :
    parseInt32Prop (toString v) = some v := by
  interval_cases v <;> rfl

/-! ### Claim theorems -/

/-- C1: for a feature present in the supported list, `setFeatureValue`
followed by `getFeatureValue` returns exactly the value written (round-trip
through the property store), for AVCVolume across all of [-24, 0] and for
HifiMode across {0, 1, 2}; the store write succeeds (`ok = true`). -/
theorem c1_set_get_round_trip (cfg : Config) (c : Controller) (st : ExtState) (v : Int) :
    (AVCVolume ∈ c.mSupportedAdvancedFeatures → -24 ≤ v → v ≤ 0 →
      getFeatureValue cfg c ((setFeatureValue cfg c st true AVCVolume v).2).props AVCVolume
        = some v)
    ∧ (HifiMode ∈ c.mSupportedAdvancedFeatures → (v = 0 ∨ v = 1 ∨ v = 2) →
      getFeatureValue cfg c ((setFeatureValue cfg c st true HifiMode v).2).props HifiMode
        = some v) := by
  constructor
  · intro hA h1 h2
    rw [setFeatureValue_avc hA, writeAvcVolumeState_eq]
    simp only [if_true]
    rw [getFeatureValue_avc hA]
    unfold getAvcVolumeState
    rw [property_get_int32_cons_self, parseInt32Prop_toString_small v h1 (by omega)]
    rfl
  · intro hH hv
    rw [setFeatureValue_hifi hH, writeHifiModeState_eq]
    simp only [if_true]
    rw [getFeatureValue_hifi hH]
    unfold getHifiModeState
    rw [property_get_int32_cons_self,
      parseInt32Prop_toString_small v (by omega) (by omega)]
    rfl

/-- Witness for C1 at concrete inputs: round trip of -10 over AVCVolume and
of 2 over HifiMode on the discovered controller. -/
theorem c1_witness :
    getFeatureValue cfgW ctrlW
        ((setFeatureValue cfgW ctrlW st0 true AVCVolume (-10)).2).props AVCVolume
      = some (-10)
    ∧ getFeatureValue cfgW ctrlW
        ((setFeatureValue cfgW ctrlW st0 true HifiMode 2).2).props HifiMode
      = some 2 :=
  ⟨(c1_set_get_round_trip cfgW ctrlW st0 (-10)).1 (by decide) (by decide) (by decide),
   (c1_set_get_round_trip cfgW ctrlW st0 2).2 (by decide) (by decide)⟩

/-- C2 counterexample: at `v = INT32_MIN` the 32-bit multiplication
`(-1)*value` wraps, so the integer written to the kernel file is
`INT32_MIN` itself and not the arithmetic negation `-v = 2^31`. -/
theorem c2_counterexample :
    (setFeatureValue cfgW ctrlW st0 true AVCVolume INT32_MIN).2.kernel
        = [(ctrlW.avcPath, INT32_MIN)]
    ∧ INT32_MIN ≠ -INT32_MIN := by
  exact ⟨rfl, by decide⟩

/-- C2 (amended): for every AVCVolume set with `v ≠ INT32_MIN` (all other
`int32_t` values), the kernel file receives the arithmetic negation `-v`,
and the original signed value is written unchanged (as its decimal string)
to the property store when the store write succeeds, and the store is
untouched when it fails. -/
theorem c2_avc_kernel_negation (cfg : Config) (c : Controller) (st : ExtState) (ok : Bool)
    (v : Int) (hA : AVCVolume ∈ c.mSupportedAdvancedFeatures)
    (h1 : INT32_MIN < v) (h2 : v ≤ INT32_MAX) :
    (setFeatureValue cfg c st ok AVCVolume v).2.kernel = st.kernel ++ [(c.avcPath, -v)]
    ∧ (setFeatureValue cfg c st true AVCVolume v).2.props
        = (cfg.avcProp, toString v) :: st.props
    ∧ (setFeatureValue cfg c st false AVCVolume v).2.props = st.props := by
  have hw : toInt32 (-v) = -v :=
    toInt32_eq_self (by unfold INT32_MIN INT32_MAX at *; omega)
      (by unfold INT32_MIN INT32_MAX at *; omega)
  refine ⟨?_, ?_, ?_⟩ <;> rw [setFeatureValue_avc hA, writeAvcVolumeState_eq] <;> simp [hw]

/-- Witness for C2's amended theorem: setting -10 writes 10 to the kernel
path and the string "-10" to the property store. -/
theorem c2_witness :
    (setFeatureValue cfgW ctrlW st0 true AVCVolume (-10)).2.kernel
        = [(ctrlW.avcPath, 10)]
    ∧ (setFeatureValue cfgW ctrlW st0 true AVCVolume (-10)).2.props
        = [(cfgW.avcProp, "-10")] := by
  have h := c2_avc_kernel_negation cfgW ctrlW st0 true (-10) (by decide) (by decide) (by decide)
  exact ⟨h.1, h.2.1⟩

/-- C3: for a feature not in the supported list, `getFeatureValue` returns
the sentinel -1 for every persisted property state, and `setFeatureValue`
returns `false` leaving the external state (kernel files and property
store) unchanged. -/
theorem c3_unsupported_feature (cfg : Config) (c : Controller) (ps : PropStore)
    (st : ExtState) (ok : Bool) (f v : Int) (h : f ∉ c.mSupportedAdvancedFeatures) :
    getFeatureValue cfg c ps f = some (-1)
    ∧ setFeatureValue cfg c st ok f v = (false, st) :=
  ⟨getFeatureValue_unsupported h, setFeatureValue_unsupported h⟩

/-- Witness for C3: feature code 5 is not supported by the discovered
controller; with a non-trivial persisted state the sentinel and the no-op
result appear. -/
theorem c3_witness :
    getFeatureValue cfgW ctrlW [(cfgW.avcProp, "7")] 5 = some (-1)
    ∧ setFeatureValue cfgW ctrlW st0 true 5 3 = (false, st0) :=
  c3_unsupported_feature cfgW ctrlW [(cfgW.avcProp, "7")] st0 true 5 3 (by decide)

/-- C4 (code bug): the source returns `(bool)property_set(...)`, but
`property_set` returns 0 on success, so `setFeatureValue` returns `false`
exactly when the property-store write succeeds (here: the store visibly
gained the binding) and `true` exactly when it fails — the inverse of the
claimed boolean. -/
theorem c4_inverted_return :
    (setFeatureValue cfgW ctrlW st0 true AVCVolume (-10)).1 = false
    ∧ (setFeatureValue cfgW ctrlW st0 true AVCVolume (-10)).2.props
        = [(cfgW.avcProp, "-10")]
    ∧ (setFeatureValue cfgW ctrlW st0 false AVCVolume (-10)).1 = true
    ∧ (setFeatureValue cfgW ctrlW st0 false AVCVolume (-10)).2.props = [] :=
  ⟨rfl, rfl, rfl, rfl⟩

/-- C5: whenever AVCVolume is supported its value-space is the constant
range {min = -24, max = 0, step = 1}; whenever HifiMode is supported it is
exactly the pairs ("Normal","0"), ("High Impedance","1"), ("AUX","2") in
that order; for an unsupported feature the callback is never invoked
(`none`). -/
theorem c5_feature_values (c : Controller) (f : Int) :
    (AVCVolume ∈ c.mSupportedAdvancedFeatures →
      getSupportedAdvancedFeatureValues c AVCVolume
        = some { range := some { min := -24, max := 0, step := 1 }, states := [] })
    ∧ (HifiMode ∈ c.mSupportedAdvancedFeatures →
      getSupportedAdvancedFeatureValues c HifiMode
        = some { range := none,
                 states := [{ name := "Normal", value := "0" },
                            { name := "High Impedance", value := "1" },
                            { name := "AUX", value := "2" }] })
    ∧ (f ∉ c.mSupportedAdvancedFeatures → getSupportedAdvancedFeatureValues c f = none) := by
  refine ⟨fun h => ?_, fun h => ?_,
    fun h => getSupportedAdvancedFeatureValues_unsupported h⟩
  · simp [getSupportedAdvancedFeatureValues, h, getAvcVolumeStates]
  · have hne : HifiMode ≠ AVCVolume := by decide
    simp [getSupportedAdvancedFeatureValues, h, hne, getHifiModeStates, hifi_modes]

/-- Witness for C5 on the discovered controller and the unsupported feature
code 9. -/
theorem c5_witness :
    getSupportedAdvancedFeatureValues ctrlW AVCVolume
      = some { range := some { min := -24, max := 0, step := 1 }, states := [] }
    ∧ getSupportedAdvancedFeatureValues ctrlW HifiMode
      = some { range := none,
               states := [{ name := "Normal", value := "0" },
                          { name := "High Impedance", value := "1" },
                          { name := "AUX", value := "2" }] }
    ∧ getSupportedAdvancedFeatureValues ctrlW 9 = none :=
  ⟨(c5_feature_values ctrlW 9).1 (by decide), (c5_feature_values ctrlW 9).2.1 (by decide),
   (c5_feature_values ctrlW 9).2.2 (by decide)⟩

/-- A path that contains the identifier substring is not the empty
string. -/
theorem path_of_strContains_ne_empty {p : String} (h : strContains p "0048" = true) :
    p.isEmpty = false := by
  by_contra hne
  have hp : p = "" := (String.isEmpty_iff p).mp (by
    cases hb : p.isEmpty
    · exact absurd hb hne
    · rfl)
  rw [hp] at h
  exact absurd h (by decide)

/-- Characterization of the discovered supported list when a codec
directory matches: AVCVolume is appended first iff the AVC control file
exists, then HifiMode iff the mode control file exists. -/
theorem construct_supported_eq (cfg : Config) (fs : Filesystem) (st : ExtState)
    (okA okH : Bool) (e : DirEntry)
    (he : fs.entries.find? (fun d => d.isDir && strContains d.path "0048") = some e) :
    (construct cfg fs st okA okH).1.mSupportedAdvancedFeatures
      = (if fs.files.contains (e.path ++ cfg.avcSuffix) then [AVCVolume] else [])
        ++ (if fs.files.contains (e.path ++ cfg.hifiSuffix) then [HifiMode] else []) := by
  have hmatch := List.find?_some he
  simp only [Bool.and_eq_true] at hmatch
  have hne : e.path.isEmpty = false := path_of_strContains_ne_empty hmatch.2
  have hbase : findBase fs.entries = e.path := by simp [findBase, he]
  unfold construct
  rw [hbase]
  by_cases h1 : (e.path ++ cfg.avcSuffix) ∈ fs.files <;>
    by_cases h2 : (e.path ++ cfg.hifiSuffix) ∈ fs.files <;>
      simp [hne, h1, h2]

/-- Construction with no matching directory entry is the inert default
state. -/
theorem construct_of_no_match (cfg : Config) (fs : Filesystem) (st : ExtState)
    (okA okH : Bool)
    (hfind : fs.entries.find? (fun d => d.isDir && strContains d.path "0048") = none) :
    construct cfg fs st okA okH
      = ({ mDacBasePath := "", avcPath := "", hifiPath := "",
           mSupportedAdvancedFeatures := [] }, st) := by
  have hbase : findBase fs.entries = "" := by simp [findBase, hfind]
  unfold construct
  rw [hbase]
  rfl

/-- Every feature the constructor ever appends is AVCVolume or HifiMode. -/
theorem construct_supported_sub (cfg : Config) (fs : Filesystem) (st : ExtState)
    (okA okH : Bool) :
    ∀ f ∈ (construct cfg fs st okA okH).1.mSupportedAdvancedFeatures,
      f = AVCVolume ∨ f = HifiMode := by
  intro f hf
  cases hfind : fs.entries.find? (fun d => d.isDir && strContains d.path "0048") with
  | none =>
    rw [construct_of_no_match cfg fs st okA okH hfind] at hf
    simp at hf
  | some e =>
    rw [construct_supported_eq cfg fs st okA okH e hfind] at hf
    by_cases h1 : fs.files.contains (e.path ++ cfg.avcSuffix) <;>
      by_cases h2 : fs.files.contains (e.path ++ cfg.hifiSuffix) <;>
        simp [h1, h2] at hf <;> tauto

/-- C6: when no subdirectory of the parent directory matches the chip
identifier, construction leaves the base path empty, touches no external
state, supports nothing, and every accessor subsequently returns its
failure default: empty feature list, sentinel -1, `false` with the state
unchanged. -/
theorem c6_no_match_discovery (cfg : Config) (fs : Filesystem) (st : ExtState)
    (okA okH : Bool) (ps : PropStore)
    (h : ∀ e ∈ fs.entries, ¬(e.isDir = true ∧ strContains e.path "0048" = true)) :
    (construct cfg fs st okA okH).1.mDacBasePath = ""
    ∧ (construct cfg fs st okA okH).1.mSupportedAdvancedFeatures = []
    ∧ (construct cfg fs st okA okH).2 = st
    ∧ getSupportedAdvancedFeatures (construct cfg fs st okA okH).1 = []
    ∧ (∀ f, getFeatureValue cfg (construct cfg fs st okA okH).1 ps f = some (-1))
    ∧ (∀ f v ok, setFeatureValue cfg (construct cfg fs st okA okH).1 st ok f v
        = (false, st)) := by
  have hfind : fs.entries.find? (fun d => d.isDir && strContains d.path "0048") = none := by
    rw [List.find?_eq_none]
    intro e he
    have := h e he
    cases hd : e.isDir <;> simp [hd] at this ⊢
    exact this
  rw [construct_of_no_match cfg fs st okA okH hfind]
  refine ⟨rfl, rfl, rfl, rfl, fun f => ?_, fun f v ok => ?_⟩
  · exact getFeatureValue_unsupported (by simp)
  · exact setFeatureValue_unsupported (by simp)

/-- A filesystem whose only entry does not contain the identifier. -/
def fsNoMatch : Filesystem :=
  { entries := [{ path := "/sys/devices/platform/other_codec", isDir := true }],
    files := [] }

/-- Witness for C6 on a concrete non-matching filesystem. -/
theorem c6_witness :
    (construct cfgW fsNoMatch st0 true true).1.mSupportedAdvancedFeatures = []
    ∧ (construct cfgW fsNoMatch st0 true true).2 = st0
    ∧ getFeatureValue cfgW (construct cfgW fsNoMatch st0 true true).1 [] AVCVolume
        = some (-1)
    ∧ setFeatureValue cfgW (construct cfgW fsNoMatch st0 true true).1 st0 true AVCVolume
        (-5) = (false, st0) := by
  have h := c6_no_match_discovery cfgW fsNoMatch st0 true true [] (by decide)
  exact ⟨h.2.1, h.2.2.1, h.2.2.2.2.1 AVCVolume, h.2.2.2.2.2 AVCVolume (-5) true⟩

/-- C7: when a codec directory matches at construction time, a feature is
in the supported list iff its kernel control file exists at that time, the
list is in discovery order (AVCVolume before HifiMode), and no operation
mutates the controller's state after construction. -/
theorem c7_supported_iff_exists (cfg : Config) (fs : Filesystem) (st : ExtState)
    (okA okH : Bool) (e : DirEntry)
    (he : fs.entries.find? (fun d => d.isDir && strContains d.path "0048") = some e) :
    (∀ f, f ∈ (construct cfg fs st okA okH).1.mSupportedAdvancedFeatures ↔
      ((f = AVCVolume ∧ fs.files.contains (e.path ++ cfg.avcSuffix) = true)
        ∨ (f = HifiMode ∧ fs.files.contains (e.path ++ cfg.hifiSuffix) = true)))
    ∧ (construct cfg fs st okA okH).1.mSupportedAdvancedFeatures
        = (if fs.files.contains (e.path ++ cfg.avcSuffix) then [AVCVolume] else [])
          ++ (if fs.files.contains (e.path ++ cfg.hifiSuffix) then [HifiMode] else [])
    ∧ (∀ s : Sys, ∀ ok : Bool, ∀ f v : Int,
        (sysSetFeatureValue cfg s ok f v).2.ctrl = s.ctrl
        ∧ (sysGetFeatureValue cfg s f).2 = s
        ∧ (sysGetSupportedAdvancedFeatures s).2 = s
        ∧ (sysGetSupportedAdvancedFeatureValues s f).2 = s) := by
  have hlist := construct_supported_eq cfg fs st okA okH e he
  refine ⟨fun f => ?_, hlist, fun s ok f v => ⟨rfl, rfl, rfl, rfl⟩⟩
  rw [hlist]
  by_cases h1 : fs.files.contains (e.path ++ cfg.avcSuffix) <;>
    by_cases h2 : fs.files.contains (e.path ++ cfg.hifiSuffix) <;>
      simp [h1, h2] <;> tauto

/-- Witness for C7 on the concrete filesystem `fsW`: both files exist, so
the list is exactly [AVCVolume, HifiMode] and membership matches file
existence. -/
theorem c7_witness :
    (construct cfgW fsW st0 true true).1.mSupportedAdvancedFeatures
        = (if fsW.files.contains
              ("/sys/devices/platform/soc/c0c8000.i2c/i2c-2/2-0048" ++ cfgW.avcSuffix)
           then [AVCVolume] else [])
          ++ (if fsW.files.contains
                ("/sys/devices/platform/soc/c0c8000.i2c/i2c-2/2-0048" ++ cfgW.hifiSuffix)
              then [HifiMode] else [])
    ∧ AVCVolume ∈ (construct cfgW fsW st0 true true).1.mSupportedAdvancedFeatures := by
  have h := c7_supported_iff_exists cfgW fsW st0 true true
    { path := "/sys/devices/platform/soc/c0c8000.i2c/i2c-2/2-0048", isDir := true }
    (by decide)
  exact ⟨h.2.1, (h.1 AVCVolume).mpr (Or.inl ⟨rfl, by decide⟩)⟩

/-- C8: for a supported feature whose persisted property is absent or not
parsable as an `int32_t`, `getFeatureValue` returns the feature's
compile-time default (`AVC_VOLUME_DEFAULT` / `HIFI_MODE_DEFAULT`) rather
than an error. -/
theorem c8_default_fallback (cfg : Config) (c : Controller) (ps : PropStore) :
    (AVCVolume ∈ c.mSupportedAdvancedFeatures →
      (∀ s, propGetString ps cfg.avcProp = some s → parseInt32Prop s = none) →
      getFeatureValue cfg c ps AVCVolume = some cfg.avcDefault)
    ∧ (HifiMode ∈ c.mSupportedAdvancedFeatures →
      (∀ s, propGetString ps cfg.hifiProp = some s → parseInt32Prop s = none) →
      getFeatureValue cfg c ps HifiMode = some cfg.hifiDefault) := by
  constructor
  · intro hA hbad
    rw [getFeatureValue_avc hA]
    unfold getAvcVolumeState property_get_int32
    cases hps : propGetString ps cfg.avcProp with
    | none => rfl
    | some s => simp [hbad s hps]
  · intro hH hbad
    rw [getFeatureValue_hifi hH]
    unfold getHifiModeState property_get_int32
    cases hps : propGetString ps cfg.hifiProp with
    | none => rfl
    | some s => simp [hbad s hps]

/-- Witness for C8: an absent AVC property and a non-numeric hifi property
both fall back to the configured defaults on the discovered controller. -/
theorem c8_witness :
    getFeatureValue cfgW ctrlW [] AVCVolume = some cfgW.avcDefault
    ∧ getFeatureValue cfgW ctrlW [(cfgW.hifiProp, "garbage")] HifiMode
        = some cfgW.hifiDefault := by
  constructor
  · exact (c8_default_fallback cfgW ctrlW []).1 (by decide) (by
      intro s hs
      simp [propGetString] at hs)
  · exact (c8_default_fallback cfgW ctrlW [(cfgW.hifiProp, "garbage")]).2 (by decide) (by
      intro s hs
      have hv : s = "garbage" := by
        have : propGetString [(cfgW.hifiProp, "garbage")] cfgW.hifiProp = some "garbage" := rfl
        rw [this] at hs
        exact (Option.some_inj.mp hs).symm
      rw [hv]
      rfl)

/-- C9: the supported list only ever holds AVCVolume or HifiMode, so for a
supported feature the dispatch switch always takes a case branch: the
`default` branch of `getFeatureValue` (which would return the uninitialized
local) is unreachable, and the function never returns an uninitialized
integer (`none` in the model). -/
theorem c9_dispatch_total (cfg : Config) (fs : Filesystem) (st : ExtState)
    (okA okH : Bool) (ps : PropStore) (f : Int)
    (hf : f ∈ (construct cfg fs st okA okH).1.mSupportedAdvancedFeatures) :
    (f = AVCVolume ∨ f = HifiMode)
    ∧ getFeatureValue cfg (construct cfg fs st okA okH).1 ps f ≠ none := by
  have hcase := construct_supported_sub cfg fs st okA okH f hf
  refine ⟨hcase, ?_⟩
  rcases hcase with h | h <;> subst h
  · rw [getFeatureValue_avc hf]
    simp
  · rw [getFeatureValue_hifi hf]
    simp

/-- Witness for C9: AVCVolume is supported on the discovered controller and
`getFeatureValue` returns a defined value. -/
theorem c9_witness :
    (AVCVolume = AVCVolume ∨ AVCVolume = HifiMode)
    ∧ getFeatureValue cfgW (construct cfgW fsW st0 true true).1 [] AVCVolume ≠ none :=
  c9_dispatch_total cfgW fsW st0 true true [] AVCVolume (by decide)

/-- C10: `setFeatureValue` performs no range validation: for every
`int32_t` value, in range or not, the returned boolean is the same as for
the in-range value 0, the kernel file receives the unclamped value (the
32-bit negation for AVCVolume, the value itself for HifiMode), and the
property store receives exactly the decimal string of the original value
when its write succeeds. -/
theorem c10_no_range_validation (cfg : Config) (c : Controller) (st : ExtState)
    (ok : Bool) (v : Int) (hv : isInt32 v) :
    (AVCVolume ∈ c.mSupportedAdvancedFeatures →
      (setFeatureValue cfg c st ok AVCVolume v).1
          = (setFeatureValue cfg c st ok AVCVolume 0).1
      ∧ (setFeatureValue cfg c st ok AVCVolume v).2.kernel
          = st.kernel ++ [(c.avcPath, toInt32 (-v))]
      ∧ (setFeatureValue cfg c st true AVCVolume v).2.props
          = (cfg.avcProp, toString v) :: st.props
      ∧ (setFeatureValue cfg c st false AVCVolume v).2.props = st.props)
    ∧ (HifiMode ∈ c.mSupportedAdvancedFeatures →
      (setFeatureValue cfg c st ok HifiMode v).1
          = (setFeatureValue cfg c st ok HifiMode 0).1
      ∧ (setFeatureValue cfg c st ok HifiMode v).2.kernel
          = st.kernel ++ [(c.hifiPath, v)]
      ∧ (setFeatureValue cfg c st true HifiMode v).2.props
          = (cfg.hifiProp, toString v) :: st.props
      ∧ (setFeatureValue cfg c st false HifiMode v).2.props = st.props) := by
  constructor
  · intro hA
    refine ⟨?_, ?_, ?_, ?_⟩ <;>
      rw [setFeatureValue_avc hA, writeAvcVolumeState_eq] <;>
        try rw [setFeatureValue_avc hA, writeAvcVolumeState_eq]
    all_goals simp
  · intro hH
    refine ⟨?_, ?_, ?_, ?_⟩ <;>
      rw [setFeatureValue_hifi hH, writeHifiModeState_eq] <;>
        try rw [setFeatureValue_hifi hH, writeHifiModeState_eq]
    all_goals simp

/-- Witness for C10 at the out-of-range value 999 on both features. -/
theorem c10_witness :
    (setFeatureValue cfgW ctrlW st0 true HifiMode 999).2.kernel
        = [(ctrlW.hifiPath, 999)]
    ∧ (setFeatureValue cfgW ctrlW st0 true HifiMode 999).2.props
        = [(cfgW.hifiProp, "999")]
    ∧ (setFeatureValue cfgW ctrlW st0 true AVCVolume 999).2.kernel
        = [(ctrlW.avcPath, toInt32 (-999))] := by
  have hH := (c10_no_range_validation cfgW ctrlW st0 true 999 (by decide)).2 (by decide)
  have hA := (c10_no_range_validation cfgW ctrlW st0 true 999 (by decide)).1 (by decide)
  exact ⟨hH.2.1, hH.2.2.1, hA.2.1⟩

end Dac
